import Mathlib

/-!
Verification development for the foretodata static portfolio site.

Shallow embedding of the interactive widgets of the repository:
  * `src/src/components/FilterToggle.jsx` — tag-based filter/grouping view
    over a fixed list of accomplishment records;
  * `src/src/utils/soundManager.js` — the Web-Audio sound manager;
  * `src/src/components/ViewToggle.jsx` — the theme toggle;
  * `src/src/components/AsciiHeroAnimation.jsx` — the ASCII hero animation;
  * `src/src/components/CausalNetworkVisualization.jsx` — the causal network
    cascade traversal.

JS objects become Lean structures, JS object-literal lookup tables become
association lists (preserving insertion order, which `Object.keys` /
`Object.entries` expose), nullable values become `Option`, and the DOM /
Web-Audio side effects are reified as explicit outputs (lists of created
audio nodes, localStorage write events, console warnings).
-/

namespace Foretodata

/-! ## FilterToggle.jsx — data model -/

/-- One portfolio record of the static `accomplishments` array in
`FilterToggle.jsx`. -/
structure Accomplishment where
  id : Nat
  title : String
  summary : String
  methods : List String
  industries : List String
  details : String
  metrics : List String
deriving DecidableEq

/-- The static `accomplishments` array of `FilterToggle.jsx`. -/
def accomplishments : List Accomplishment := [
  { id := 1
    title := "Revenue Optimization Model"
    summary := "Built ML model that lifted B2B conversion rates 23% by identifying high-intent prospects and optimal outreach timing."
    methods := ["causal-inference", "interpretable-ml"]
    industries := ["revenue", "b2b-sales"]
    details := "Used gradient boosting with SHAP explanations to surface the 12 features most predictive of deal closure..."
    metrics := ["23% conversion lift", "2.1x ROI on sales spend"] },
  { id := 2
    title := "Demand Forecasting Pipeline"
    summary := "Deployed hierarchical forecasting system reducing inventory costs by $2.4M annually through better demand prediction."
    methods := ["mlops", "causal-inference"]
    industries := ["operations", "supply-chain"]
    details := "Implemented Prophet + LightGBM ensemble with automated retraining via Airflow..."
    metrics := ["$2.4M annual savings", "34% forecast accuracy improvement"] },
  { id := 3
    title := "Customer Support Chatbot"
    summary := "Fine-tuned LLM handling 40% of support tickets autonomously with 94% customer satisfaction."
    methods := ["llms", "mlops"]
    industries := ["operations", "customer-experience"]
    details := "RAG architecture with custom fine-tuning on 50k historical tickets..."
    metrics := ["40% ticket deflection", "94% CSAT score"] },
  { id := 4
    title := "Dynamic Pricing Engine"
    summary := "Causal ML system for real-time price optimization, driving 18% margin improvement."
    methods := ["causal-inference", "interpretable-ml"]
    industries := ["revenue", "pricing"]
    details := "Double ML for causal effect estimation combined with contextual bandits..."
    metrics := ["18% margin improvement", "12% volume increase"] },
  { id := 5
    title := "Market Expansion Analysis"
    summary := "Location intelligence model identifying optimal retail expansion sites with 85% success rate."
    methods := ["interpretable-ml", "causal-inference"]
    industries := ["expansion", "retail"]
    details := "Geospatial features + demographic clustering with explainable predictions..."
    metrics := ["85% site success rate", "14 new locations launched"] },
  { id := 6
    title := "Document Intelligence System"
    summary := "LLM-powered contract analysis reducing legal review time by 60%."
    methods := ["llms", "mlops"]
    industries := ["operations", "legal"]
    details := "Custom extraction pipeline with validation workflows..."
    metrics := ["60% time reduction", "99.2% extraction accuracy"] }
]

/-- One entry of the `methodCategories` / `industryCategories` lookup tables. -/
structure Category where
  label : String
  icon : String
  description : String
deriving DecidableEq

/-- The `methodCategories` object literal, as an ordered association list
(JS object property order = insertion order). -/
def methodCategories : List (String × Category) := [
  ("llms", { label := "LLMs & GenAI", icon := "🔮", description := "Large language models and generative AI" }),
  ("interpretable-ml", { label := "Interpretable ML", icon := "💡", description := "Transparent models with explainable insights" }),
  ("causal-inference", { label := "Causal Inference", icon := "🎯", description := "Cause-effect analysis and impact measurement" }),
  ("mlops", { label := "MLOps", icon := "⚙️", description := "Production ML systems and pipelines" })
]

/-- The `industryCategories` object literal, as an ordered association list. -/
def industryCategories : List (String × Category) := [
  ("revenue", { label := "Grow Revenue", icon := "💰", description := "Sales optimization, pricing, conversion" }),
  ("operations", { label := "Streamline Ops", icon := "⚡", description := "Automation, efficiency, cost reduction" }),
  ("expansion", { label := "Expand Business", icon := "🚀", description := "Market analysis, location intelligence" }),
  ("b2b-sales", { label := "B2B Sales", icon := "🤝", description := "Enterprise sales and account management" }),
  ("pricing", { label := "Pricing", icon := "📊", description := "Dynamic pricing and margin optimization" }),
  ("supply-chain", { label := "Supply Chain", icon := "📦", description := "Inventory, logistics, demand planning" }),
  ("customer-experience", { label := "Customer Experience", icon := "💬", description := "Support, satisfaction, engagement" }),
  ("retail", { label := "Retail", icon := "🏪", description := "Store operations and expansion" }),
  ("legal", { label := "Legal", icon := "⚖️", description := "Contract analysis and compliance" })
]

/-- The `viewMode` state of `FilterToggle`: the string `'method'` or
`'industry'`. -/
inductive ViewMode where
  | method
  | industry
deriving DecidableEq

/-- `const categories = viewMode === 'method' ? methodCategories : industryCategories`. -/
def categories : ViewMode → List (String × Category)
  | .method => methodCategories
  | .industry => industryCategories

/-- `a[categoryKey]` where
`const categoryKey = viewMode === 'method' ? 'methods' : 'industries'`. -/
def tagsOf : ViewMode → Accomplishment → List String
  | .method, a => a.methods
  | .industry, a => a.industries

/-- The `grouped` memo of `FilterToggle`: for each key `cat` of the active
category table, in `Object.keys` order,
`groups[cat] = accomplishments.filter(a => a[categoryKey].includes(cat))`. -/
def grouped (vm : ViewMode) : List (String × List Accomplishment) :=
  (categories vm).map fun p =>
    (p.1, accomplishments.filter fun a => (tagsOf vm a).contains p.1)

/-- The object read `grouped[key]`: `none` models `undefined`. -/
def groupedLookup (vm : ViewMode) (key : String) : Option (List Accomplishment) :=
  (grouped vm).lookup key

/-- The count shown on a category pill: `grouped[key]?.length || 0`
(JS `||` yields the right operand when the left is the falsy number `0`). -/
def pillCount (vm : ViewMode) (key : String) : Nat :=
  match groupedLookup vm key with
  | none => 0
  | some l => if l.length = 0 then 0 else l.length

/-! ## FilterToggle.jsx — expanded-card state -/

/-- Whether a card is rendered expanded: the JSX tests `expandedId === item.id`
(with `expandedId` a number or `null`, modelled as `Option Nat`). -/
def isExpanded (expandedId : Option Nat) (a : Accomplishment) : Bool :=
  expandedId == some a.id

/-- The card click handler:
`setExpandedId(expandedId === item.id ? null : item.id)`. -/
def clickCard (expandedId : Option Nat) (itemId : Nat) : Option Nat :=
  if expandedId == some itemId then none else some itemId

/-! ## FilterToggle.jsx — tag labels -/

/-- The label rendered for a method tag `m` of an expanded card:
`methodCategories[m]?.label || m` (the optional-chaining read gives
`undefined` for a missing key, and `||` falls back when the left operand is
falsy — `undefined`, or the empty string). -/
def renderedMethodLabel (m : String) : String :=
  match methodCategories.lookup m with
  | some c => if c.label = "" then m else c.label
  | none => m

/-- The label rendered for an industry tag `i` of an expanded card:
`industryCategories[i]?.label || i`. -/
def renderedIndustryLabel (i : String) : String :=
  match industryCategories.lookup i with
  | some c => if c.label = "" then i else c.label
  | none => i

/-! ## Helper lemmas -/

theorem lookup_mem {α β : Type} [BEq α] [LawfulBEq α] :
    ∀ {l : List (α × β)} {k : α} {c : β}, l.lookup k = some c → (k, c) ∈ l := by
  intro l
  induction l with
  | nil => intro k c h; simp [List.lookup] at h
  | cons p tl ih =>
    intro k c h
    obtain ⟨k', v⟩ := p
    rw [List.lookup] at h
    cases hbeq : k == k' with
    | true =>
      rw [hbeq] at h
      have hk : k = k' := eq_of_beq hbeq
      have hv : v = c := by simpa using h
      subst hk; subst hv
      exact List.mem_cons_self _ _
    | false =>
      rw [hbeq] at h
      exact List.mem_cons_of_mem _ (ih h)

/-! ## soundManager.js — model

The mutable fields of the `SoundManager` singleton, browser localStorage and
the Web-Audio side effects are made explicit. A call's effects are returned
as data: the nodes it created, whether it requested `resume()`, the
localStorage writes it performed, and whether `console.warn` fired. -/

/-- The kinds of Web-Audio objects the sound manager creates
(`createOscillator`, `createGain`, `createWaveShaper`, `createBiquadFilter`,
`createBuffer`, `createBufferSource`). -/
inductive AudioNode where
  | oscillator
  | gainNode
  | waveShaper
  | biquadFilter
  | audioBuffer
  | bufferSource
deriving DecidableEq

/-- Browser localStorage: a partial map from keys to string values. -/
def Store := String → Option String

/-- `localStorage.setItem(k, v)`. -/
def setItem (k v : String) (s : Store) : Store :=
  fun k' => if k' = k then some v else s k'

/-- `localStorage.getItem(k)` (`none` models `null`). -/
def getItem (k : String) (s : Store) : Option String := s k

/-- The mutable fields of the `SoundManager` class. `audioContext` is `none`
for `null`; `some susp` is a live context whose `state` is `'suspended'`
iff `susp`. Times are integer epoch milliseconds. -/
structure SMState where
  audioContext : Option Bool
  enabled : Bool
  lastHoverTime : Int
  hoverThrottle : Int
  initialized : Bool
deriving DecidableEq

/-- The `SoundManager` constructor. -/
def SMState.new : SMState :=
  { audioContext := none
    enabled := false
    lastHoverTime := 0
    hoverThrottle := 100
    initialized := false }

/-- `resume()`: resumes the audio context when it exists and is suspended. -/
def SMState.resume (st : SMState) : SMState :=
  match st.audioContext with
  | some true => { st with audioContext := some false }
  | _ => st

/-- The body of the `try` block of `init()`. Constructing the
`AudioContext` is the modelled throw site: `ctorOk = false` models
`new AudioContext()` throwing (unsupported Web Audio API), and
`ctorSuspended` models the fresh context starting in the `'suspended'`
autoplay state. The failure aborts before any field is assigned, exactly as
a throw in `new (window.AudioContext || window.webkitAudioContext)()` does. -/
def initTry (ctorOk ctorSuspended : Bool) (st : SMState) (ls : Store) :
    Except String SMState :=
  if ctorOk then
    let st1 := { st with audioContext := some ctorSuspended, initialized := true }
    let st2 := { st1 with enabled := getItem "soundEnabled" ls == some "true" }
    .ok st2.resume
  else
    .error "Web Audio API not supported"

/-- `init()`. The boolean output records whether `console.warn` was called;
the `catch` block swallows the exception, so `init` always returns
normally (it is a total function into `SMState × Bool`, not into `Except`). -/
def init (ctorOk ctorSuspended : Bool) (st : SMState) (ls : Store) :
    SMState × Bool :=
  if st.initialized then (st, false)
  else
    match initTry ctorOk ctorSuspended st ls with
    | .ok st' => (st', false)
    | .error _ => (st, true)

/-- The visible outcome of one `play*` / `addNoiseBurst` call: the new
manager state, the Web-Audio nodes created during the call in creation
order, and whether `resume()` was invoked. -/
structure PlayResult where
  state : SMState
  nodes : List AudioNode
  resumed : Bool
deriving DecidableEq

/-- `addNoiseBurst(volume, duration)`: guarded only by `audioContext`;
creates a noise buffer, a buffer source, a gain node and a highpass filter.
The numeric envelope arguments affect only sample values and gain levels,
which are not modelled. -/
def addNoiseBurst (st : SMState) : PlayResult :=
  if st.audioContext.isNone then ⟨st, [], false⟩
  else ⟨st, [.audioBuffer, .bufferSource, .gainNode, .biquadFilter], false⟩

/-- `playClick()`: square-wave blip through a distortion curve plus a noise
burst. -/
def playClick (st : SMState) : PlayResult :=
  if !st.enabled || st.audioContext.isNone then ⟨st, [], false⟩
  else
    let st1 := st.resume
    let burst := addNoiseBurst st1
    ⟨burst.state, [.oscillator, .gainNode, .waveShaper] ++ burst.nodes, true⟩

/-- `playHover()`: throttled soft blip; `now` is `Date.now()`. The throttle
check and the `lastHoverTime` update happen only after the enabled/context
guard. -/
def playHover (now : Int) (st : SMState) : PlayResult :=
  if !st.enabled || st.audioContext.isNone then ⟨st, [], false⟩
  else if now - st.lastHoverTime < st.hoverThrottle then ⟨st, [], false⟩
  else
    let st1 := { st with lastHoverTime := now }
    ⟨st1.resume, [.oscillator, .gainNode], true⟩

/-- `playToggle()`: two-tone mechanical switch sound plus a noise burst. -/
def playToggle (st : SMState) : PlayResult :=
  if !st.enabled || st.audioContext.isNone then ⟨st, [], false⟩
  else
    let st1 := st.resume
    let burst := addNoiseBurst st1
    ⟨burst.state, [.oscillator, .oscillator, .gainNode] ++ burst.nodes, true⟩

/-- `playToggleOn()`: ascending chirp; guarded only by `audioContext`,
not by `enabled`. -/
def playToggleOn (st : SMState) : PlayResult :=
  if st.audioContext.isNone then ⟨st, [], false⟩
  else ⟨st.resume, [.oscillator, .gainNode], true⟩

/-- `playExpand()`: descending filtered whoosh. -/
def playExpand (st : SMState) : PlayResult :=
  if !st.enabled || st.audioContext.isNone then ⟨st, [], false⟩
  else ⟨st.resume, [.oscillator, .gainNode, .biquadFilter], true⟩

/-- `playCollapse()`: ascending filtered whoosh. -/
def playCollapse (st : SMState) : PlayResult :=
  if !st.enabled || st.audioContext.isNone then ⟨st, [], false⟩
  else ⟨st.resume, [.oscillator, .gainNode], true⟩

/-- `playSelect()`: crisp double beep. -/
def playSelect (st : SMState) : PlayResult :=
  if !st.enabled || st.audioContext.isNone then ⟨st, [], false⟩
  else ⟨st.resume, [.oscillator, .gainNode], true⟩

/-- JS `Boolean.prototype.toString`. -/
def boolToString (b : Bool) : String := if b then "true" else "false"

/-- The outcome of `toggle()`: final state, final store, the localStorage
writes performed (key/value, in order), the returned value, whether
`console.warn` fired, and the nodes created by the confirmation sound. -/
structure ToggleResult where
  state : SMState
  store : Store
  writes : List (String × String)
  ret : Bool
  warned : Bool
  nodes : List AudioNode

/-- `toggle()`: flips `enabled`, persists `this.enabled.toString()` under
`'soundEnabled'`, and — when the new value is `true` — calls `init()`
(which re-reads `'soundEnabled'` from localStorage) and `playToggleOn()`,
finally returning `this.enabled`. -/
def toggle (ctorOk ctorSuspended : Bool) (st : SMState) (ls : Store) :
    ToggleResult :=
  let st1 := { st with enabled := !st.enabled }
  let ls1 := setItem "soundEnabled" (boolToString st1.enabled) ls
  let writes := [("soundEnabled", boolToString st1.enabled)]
  if st1.enabled then
    let r := init ctorOk ctorSuspended st1 ls1
    let pr := playToggleOn r.1
    { state := pr.state, store := ls1, writes := writes
      ret := pr.state.enabled, warned := r.2, nodes := pr.nodes }
  else
    { state := st1, store := ls1, writes := writes
      ret := st1.enabled, warned := false, nodes := [] }

/-! ## ViewToggle.jsx — model -/

/-- The `view` state of `ViewToggle` plus the root element's `dark` /
`classic` css classes. -/
structure ViewState where
  view : String
  dark : Bool
  classic : Bool
deriving DecidableEq

/-- `handleViewChange(newView)`: set the state, persist it under
`'siteView'`, and swap the root classes. Returns the new view state, the
new store and the localStorage writes performed. -/
def handleViewChange (newView : String) (vs : ViewState) (ls : Store) :
    ViewState × Store × List (String × String) :=
  let vs1 := { vs with view := newView }
  let ls1 := setItem "siteView" newView ls
  let vs2 :=
    if newView = "classic" then { vs1 with dark := false, classic := true }
    else { vs1 with classic := false, dark := true }
  (vs2, ls1, [("siteView", newView)])

/-- Every user interaction in the repository that writes to browser local
storage: the sound toggle (`soundManager.toggle()`), and the two buttons of
`ViewToggle`, whose `onClick` handlers are `handleViewChange('terminal')`
and `handleViewChange('classic')` — the only call sites of
`handleViewChange`. No other code in the repository calls
`localStorage.setItem`. -/
inductive StorageEvent where
  | soundToggle (ctorOk ctorSuspended : Bool)
  | viewTerminalClick
  | viewClassicClick

/-- The localStorage writes performed by one such event. -/
def eventWrites (e : StorageEvent) (st : SMState) (vs : ViewState)
    (ls : Store) : List (String × String) :=
  match e with
  | .soundToggle ctorOk ctorSuspended => (toggle ctorOk ctorSuspended st ls).writes
  | .viewTerminalClick => (handleViewChange "terminal" vs ls).2.2
  | .viewClassicClick => (handleViewChange "classic" vs ls).2.2

/-! ## AsciiHeroAnimation.jsx — model -/

/-- The per-frame metrics of an enzyme-panel frame. -/
structure EnzymeMetrics where
  kcat : String
  efficiency : String
  tm : String
deriving DecidableEq

/-- One frame of `enzymeFrames`. -/
structure EnzymeFrame where
  art : String
  metrics : EnzymeMetrics
  allosteric : List Bool
deriving DecidableEq

/-- The `enzymeFrames` literal array (6 frames). -/
def enzymeFrames : List EnzymeFrame := [
  { art := "\n ACTIVE SITE         FITNESS LANDSCAPE\n ┌─────────────┐    ┌───────────────────┐\n │   ○───○     │    │ ╱─╲   ╱───╲  ╱─╲  │\n │  ╱  ▼  ╲    │    │╱   ╲_╱     ╲╱   ╲ │\n │ ●   ◇   ●   │    │─────•─────────────│\n │  ╲     ╱    │    │╲   ╱ ╲     ╱╲   ╱ │\n │   ●───●     │    │ ╲_╱   ╲___╱  ╲_╱  │\n │○         ○  │    │    sequence space  │\n │allo   allo  │    └───────────────────┘\n └─────────────┘"
    metrics := { kcat := "142", efficiency := "1.2", tm := "68" }
    allosteric := [false, false] },
  { art := "\n ACTIVE SITE         FITNESS LANDSCAPE\n ┌─────────────┐    ┌───────────────────┐\n │   ○───○     │    │ ╱─╲   ╱───╲  ╱─╲  │\n │  ╱  ▼  ╲    │    │╱ • ╲_╱     ╲╱   ╲ │\n │ ●   ◆   ●   │    │─────────────────── │\n │  ╲     ╱    │    │╲   ╱ ╲     ╱╲   ╱ │\n │   ●───●     │    │ ╲_╱   ╲___╱  ╲_╱  │\n │◉         ○  │    │    sequence space  │\n │allo   allo  │    └───────────────────┘\n └─────────────┘"
    metrics := { kcat := "148", efficiency := "1.3", tm := "70" }
    allosteric := [true, false] },
  { art := "\n ACTIVE SITE         FITNESS LANDSCAPE\n ┌─────────────┐    ┌───────────────────┐\n │   ●───●     │    │ •─╲   ╱───╲  ╱─╲  │\n │  ╱  ▼  ╲    │    │╱   ╲_╱     ╲╱   ╲ │\n │ ●   ◆   ●   │    │─────────────────── │\n │  ╲     ╱    │    │╲   ╱ ╲     ╱╲   ╱ │\n │   ●───●     │    │ ╲_╱   ╲___╱  ╲_╱  │\n │◉         ◉  │    │    sequence space  │\n │allo   allo  │    └───────────────────┘\n └─────────────┘"
    metrics := { kcat := "151", efficiency := "1.4", tm := "71" }
    allosteric := [true, true] },
  { art := "\n ACTIVE SITE         FITNESS LANDSCAPE\n ┌─────────────┐    ┌───────────────────┐\n │   ○───○     │    │ ╱─╲   ╱───╲  ╱─╲  │\n │  ╱  ▽  ╲    │    │╱   ╲_╱  •  ╲╱   ╲ │\n │ ○   ◇   ○   │    │─────────────────── │\n │  ╲     ╱    │    │╲   ╱ ╲     ╱╲   ╱ │\n │   ○───○     │    │ ╲_╱   ╲___╱  ╲_╱  │\n │○         ○  │    │    sequence space  │\n │allo   allo  │    └───────────────────┘\n └─────────────┘"
    metrics := { kcat := "144", efficiency := "1.2", tm := "69" }
    allosteric := [false, false] },
  { art := "\n ACTIVE SITE         FITNESS LANDSCAPE\n ┌─────────────┐    ┌───────────────────┐\n │   ●───●     │    │ ╱─╲   ╱─•─╲  ╱─╲  │\n │  ╱  ▼  ╲    │    │╱   ╲_╱     ╲╱   ╲ │\n │ ●   ◆   ●   │    │─────────────────── │\n │  ╲     ╱    │    │╲   ╱ ╲     ╱╲   ╱ │\n │   ●───●     │    │ ╲_╱   ╲___╱  ╲_╱  │\n │◉         ○  │    │    sequence space  │\n │allo   allo  │    └───────────────────┘\n └─────────────┘"
    metrics := { kcat := "155", efficiency := "1.5", tm := "72" }
    allosteric := [true, false] },
  { art := "\n ACTIVE SITE         FITNESS LANDSCAPE\n ┌─────────────┐    ┌───────────────────┐\n │   ●═══●     │    │ ╱─╲   ╱─╲ •  ╱─╲  │\n │  ╱  ▼  ╲    │    │╱   ╲_╱   ╲ ╲╱   ╲ │\n │ ●   ★   ●   │    │─────────────────── │\n │  ╲     ╱    │    │╲   ╱ ╲     ╱╲   ╱ │\n │   ●═══●     │    │ ╲_╱   ╲___╱  ╲_╱  │\n │◉         ◉  │    │    sequence space  │\n │allo   allo  │    └───────────────────┘\n └─────────────┘"
    metrics := { kcat := "162", efficiency := "1.6", tm := "74" }
    allosteric := [true, true] }
]

/-- One frame of `regulatoryFrames`. The JS numbers `v`, `p` are decimal
literals, embedded as the rationals they denote. -/
structure RegulatoryFrame where
  art : String
  state : String
  stability : Nat
  v : ℚ
  p : ℚ
deriving DecidableEq

/-- The `regulatoryFrames` literal array (12 frames). -/
def regulatoryFrames : List RegulatoryFrame := [
  { art := "\n NETWORK STATE       PHENOTYPE SPACE\n┌─────────────┐    ┌────────────────┐\n│             │    │ P              │\n│ ┌─ TF1 ─┐   │    │ ↑      ●       │\n│ │███████│   │    │ │       ╲      │\n│ └───┬───┘   │    │ │        ╲     │\n│   ⊣─┼─⊣     │    │ │         ╲    │\n│ ┌───┴───┐   │    │ │          ╲   │\n│ │░░░░░░░│   │    │ │           ○  │\n│ └─ TF2 ─┘   │    │ └────────────→ │\n│  ↓     ↓    │    │            V   │\n│prod  surv   │    └────────────────┘\n└─────────────┘"
    state := "OPTIMAL", stability := 94, v := 0.87, p := 0.91 },
  { art := "\n NETWORK STATE       PHENOTYPE SPACE\n┌─────────────┐    ┌────────────────┐\n│             │    │ P              │\n│ ┌─ TF1 ─┐   │    │ ↑      ●       │\n│ │███████│   │    │ │       ╲      │\n│ └───┬───┘   │    │ │        ╲     │\n│   ⊣─●─⊣     │    │ │         ╲    │\n│ ┌───┴───┐   │    │ │          ╲   │\n│ │░░░░░░░│   │    │ │           ○  │\n│ └─ TF2 ─┘   │    │ └────────────→ │\n│  ↓     ↓    │    │            V   │\n│prod  surv   │    └────────────────┘\n└─────────────┘"
    state := "OPTIMAL", stability := 92, v := 0.85, p := 0.89 },
  { art := "\n NETWORK STATE       PHENOTYPE SPACE\n┌─────────────┐    ┌────────────────┐\n│   ⚡signal   │    │ P              │\n│     ↓       │    │ ↑      ●       │\n│ ┌─ TF1 ─┐   │    │ │       ╲      │\n│ │██████░│   │    │ │        ╲     │\n│ └───┬───┘   │    │ │         ╲    │\n│   ⊣─┼─⊣     │    │ │          ╲   │\n│ ┌───┴───┐   │    │ │           ○  │\n│ │░░░░░░░│   │    │ └────────────→ │\n│ └─ TF2 ─┘   │    │            V   │\n│             │    └────────────────┘\n└─────────────┘"
    state := "OPTIMAL", stability := 78, v := 0.79, p := 0.82 },
  { art := "\n NETWORK STATE       PHENOTYPE SPACE\n┌─────────────┐    ┌────────────────┐\n│   ⚡⚡signal  │    │ P              │\n│     ↓↓      │    │ ↑     ·        │\n│ ┌─ TF1 ─┐   │    │ │    ·  ╲      │\n│ │████░░░│   │    │ │   ●    ╲     │\n│ └───┬───┘   │    │ │         ╲    │\n│   ⊣─┼─⊣     │    │ │          ╲   │\n│ ┌───┴───┐   │    │ │           ○  │\n│ │██░░░░░│   │    │ └────────────→ │\n│ └─ TF2 ─┘   │    │            V   │\n│             │    └────────────────┘\n└─────────────┘"
    state := "switching", stability := 34, v := 0.52, p := 0.48 },
  { art := "\n NETWORK STATE       PHENOTYPE SPACE\n┌─────────────┐    ┌────────────────┐\n│             │    │ P              │\n│ ┌─ TF1 ─┐   │    │ ↑    ·         │\n│ │██░░░░░│   │    │ │  ·    ╲      │\n│ └───┬───┘   │    │ │ ●      ╲     │\n│   ⊣─○─⊣     │    │ │         ╲    │\n│ ┌───┴───┐   │    │ │          ╲   │\n│ │████░░░│   │    │ │           ○  │\n│ └─ TF2 ─┘   │    │ └────────────→ │\n│  ↓     ↓    │    │            V   │\n│prod  surv   │    └────────────────┘\n└─────────────┘"
    state := "switching", stability := 12, v := 0.38, p := 0.31 },
  { art := "\n NETWORK STATE       PHENOTYPE SPACE\n┌─────────────┐    ┌────────────────┐\n│             │    │ P              │\n│ ┌─ TF1 ─┐   │    │ ↑       ╲      │\n│ │█░░░░░░│   │    │ │ ·      ╲     │\n│ └───┬───┘   │    │ │·        ╲    │\n│   ⊣─┼─⊣     │    │ │          ╲   │\n│ ┌───┴───┐   │    │ │       ●   ○  │\n│ │█████░░│   │    │ └────────────→ │\n│ └─ TF2 ─┘   │    │            V   │\n│  ↓     ↓    │    │                │\n│prod  surv   │    └────────────────┘\n└─────────────┘"
    state := "SURVIVAL", stability := 58, v := 0.78, p := 0.21 },
  { art := "\n NETWORK STATE       PHENOTYPE SPACE\n┌─────────────┐    ┌────────────────┐\n│             │    │ P              │\n│ ┌─ TF1 ─┐   │    │ ↑       ╲      │\n│ │░░░░░░░│   │    │ │        ╲     │\n│ └───┬───┘   │    │ │         ╲    │\n│   ⊣─┼─⊣     │    │ │          ╲   │\n│ ┌───┴───┐   │    │ │           ●  │\n│ │███████│   │    │ └────────────→ │\n│ └─ TF2 ─┘   │    │            V   │\n│  ↓     ↓    │    │                │\n│prod  surv   │    └────────────────┘\n└─────────────┘"
    state := "SURVIVAL", stability := 89, v := 0.91, p := 0.11 },
  { art := "\n NETWORK STATE       PHENOTYPE SPACE\n┌─────────────┐    ┌────────────────┐\n│             │    │ P              │\n│ ┌─ TF1 ─┐   │    │ ↑       ╲      │\n│ │░░░░░░░│   │    │ │        ╲     │\n│ └───┬───┘   │    │ │         ╲    │\n│   ⊣─●─⊣     │    │ │          ╲   │\n│ ┌───┴───┐   │    │ │           ●  │\n│ │███████│   │    │ └────────────→ │\n│ └─ TF2 ─┘   │    │            V   │\n│  ↓     ↓    │    │                │\n│prod  surv   │    └────────────────┘\n└─────────────┘"
    state := "SURVIVAL", stability := 91, v := 0.88, p := 0.13 },
  { art := "\n NETWORK STATE       PHENOTYPE SPACE\n┌─────────────┐    ┌────────────────┐\n│   ⚡signal   │    │ P              │\n│     ↓       │    │ ↑       ╲      │\n│ ┌─ TF1 ─┐   │    │ │        ╲     │\n│ │░░░░░░░│   │    │ │         ╲    │\n│ └───┬───┘   │    │ │          ╲   │\n│   ⊣─┼─⊣     │    │ │           ●  │\n│ ┌───┴───┐   │    │ └────────────→ │\n│ │██████░│   │    │            V   │\n│ └─ TF2 ─┘   │    │                │\n│             │    └────────────────┘\n└─────────────┘"
    state := "SURVIVAL", stability := 76, v := 0.82, p := 0.19 },
  { art := "\n NETWORK STATE       PHENOTYPE SPACE\n┌─────────────┐    ┌────────────────┐\n│   ⚡⚡signal  │    │ P              │\n│     ↓↓      │    │ ↑       ╲      │\n│ ┌─ TF1 ─┐   │    │ │   ·    ╲     │\n│ │██░░░░░│   │    │ │  ●      ╲    │\n│ └───┬───┘   │    │ │          ╲   │\n│   ⊣─┼─⊣     │    │ │       ·   ○  │\n│ ┌───┴───┐   │    │ └────────────→ │\n│ │████░░░│   │    │            V   │\n│ └─ TF2 ─┘   │    │                │\n│             │    └────────────────┘\n└─────────────┘"
    state := "switching", stability := 31, v := 0.52, p := 0.45 },
  { art := "\n NETWORK STATE       PHENOTYPE SPACE\n┌─────────────┐    ┌────────────────┐\n│             │    │ P              │\n│ ┌─ TF1 ─┐   │    │ ↑    ·         │\n│ │████░░░│   │    │ │   ●   ╲      │\n│ └───┬───┘   │    │ │        ╲     │\n│   ⊣─○─⊣     │    │ │     ·   ╲    │\n│ ┌───┴───┐   │    │ │          ╲   │\n│ │██░░░░░│   │    │ │           ○  │\n│ └─ TF2 ─┘   │    │ └────────────→ │\n│  ↓     ↓    │    │            V   │\n│prod  surv   │    └────────────────┘\n└─────────────┘"
    state := "switching", stability := 18, v := 0.41, p := 0.58 },
  { art := "\n NETWORK STATE       PHENOTYPE SPACE\n┌─────────────┐    ┌────────────────┐\n│             │    │ P              │\n│ ┌─ TF1 ─┐   │    │ ↑     ·        │\n│ │█████░░│   │    │ │     ●  ╲     │\n│ └───┬───┘   │    │ │   ·     ╲    │\n│   ⊣─┼─⊣     │    │ │          ╲   │\n│ ┌───┴───┐   │    │ │           ○  │\n│ │█░░░░░░│   │    │ └────────────→ │\n│ └─ TF2 ─┘   │    │            V   │\n│  ↓     ↓    │    │                │\n│prod  surv   │    └────────────────┘\n└─────────────┘"
    state := "OPTIMAL", stability := 62, v := 0.74, p := 0.75 }
]

/-- One frame of `decisionFrames`. -/
structure DecisionFrame where
  art : String
  conv : String
  rev : String
  churn : String
  convDir : String
  revDir : String
  churnDir : String
deriving DecidableEq

/-- The `decisionFrames` literal array (4 frames). -/
def decisionFrames : List DecisionFrame := [
  { art := "\n   ▸▸▸│         ┌─────┐\n   ▹▹▹│  ──▶    │ ◇◇◇ │   ──▶\n   ▸▸▸│         │◇ M ◇│\n   ▹▹▹│         │ ◇◇◇ │\n  INPUT         └─────┘        "
    conv := "+23", rev := "2.4", churn := "-18"
    convDir := "▲", revDir := "▲", churnDir := "▼" },
  { art := "\n   ▹▸▸│         ┌─────┐\n   ▸▹▸│  ▶▶▶    │ ●○● │   ▶▶▶\n   ▹▸▹│         │○ M ○│\n   ▸▹▸│         │ ●○● │\n  INPUT         └─────┘        "
    conv := "+25", rev := "2.5", churn := "-19"
    convDir := "▲", revDir := "▲", churnDir := "▼" },
  { art := "\n   ▸▹▸│         ┌─────┐\n   ▹▸▹│  >>>    │ ◆◇◆ │   >>>\n   ▸▹▸│         │◇ M ◇│\n   ▹▸▹│         │ ◆◇◆ │\n  INPUT         └─────┘        "
    conv := "+27", rev := "2.6", churn := "-21"
    convDir := "▲", revDir := "▲", churnDir := "▼" },
  { art := "\n   ▹▹▸│         ┌─────┐\n   ▸▸▹│  ⟹     │ ★☆★ │   ⟹\n   ▹▹▸│         │☆ M ☆│\n   ▸▸▹│         │ ★☆★ │\n  INPUT         └─────┘        "
    conv := "+29", rev := "2.7", churn := "-22"
    convDir := "▲", revDir := "▲", churnDir := "▼" }
]

/-- One frame, as consumed by `AsciiPanel` (the three panels carry frame
arrays of different record shapes). -/
inductive Frame where
  | enzyme (f : EnzymeFrame)
  | regulatory (f : RegulatoryFrame)
  | decision (f : DecisionFrame)
deriving DecidableEq

/-- One entry of the `panels` configuration array. -/
structure Panel where
  id : String
  title : String
  subtitle : String
  color : String
  frames : List Frame
deriving DecidableEq

/-- The `panels` configuration array of `AsciiHeroAnimation.jsx`. -/
def panels : List Panel := [
  { id := "enzyme"
    title := "ENZYME ENGINEERING"
    subtitle := "sequence → structure → function"
    color := "text-accent"
    frames := enzymeFrames.map Frame.enzyme },
  { id := "regulatory"
    title := "REGULATORY CIRCUITS"
    subtitle := "network → dynamics → cell fate"
    color := "text-cyan"
    frames := regulatoryFrames.map Frame.regulatory },
  { id := "decision"
    title := "DECISION SYSTEMS"
    subtitle := "signal → model → action → outcome"
    color := "text-amber"
    frames := decisionFrames.map Frame.decision }
]

/-- One tick of the hero animation interval:
`setFrameIndex((prev) => (prev + 1) % 12)`. -/
def tick (prev : Nat) : Nat := (prev + 1) % 12

/-- The shared `frameIndex` state after `n` ticks (`useState(0)` starts it at
`0`). -/
def frameIndexAt : Nat → Nat
  | 0 => 0
  | n + 1 => tick (frameIndexAt n)

/-- The frame an `AsciiPanel` displays:
`panel.frames[frameIndex % panel.frames.length]`; `none` models the
JS `undefined` an out-of-bounds index would give. -/
def selectedFrame (panel : Panel) (frameIndex : Nat) : Option Frame :=
  panel.frames.get? (frameIndex % panel.frames.length)

/-! ## CausalNetworkVisualization.jsx — model

The file's final revision (its third document section) is embedded: the
variant whose edge list carries the `feedback: true` perimeter loops and
whose `traverse` skips them. -/

/-- One entry of the `nodes` table. -/
structure CNode where
  id : String
  label : String
  tier : Nat
  x : Nat
  y : Nat
  controllable : Bool
deriving DecidableEq

/-- The `nodes` object literal, in insertion order. -/
def cnodes : List CNode := [
  { id := "MARKET", label := "MARKET", tier := 0, x := 280, y := 20, controllable := false },
  { id := "PRICE", label := "PRICE", tier := 1, x := 50, y := 70, controllable := true },
  { id := "PROMO", label := "PROMO", tier := 1, x := 130, y := 70, controllable := true },
  { id := "CHANNEL", label := "CHANNEL", tier := 1, x := 210, y := 70, controllable := true },
  { id := "OPS", label := "OPS", tier := 1, x := 290, y := 70, controllable := true },
  { id := "DEMAND", label := "DEMAND", tier := 2, x := 90, y := 135, controllable := false },
  { id := "CONVERSION", label := "CONV", tier := 2, x := 190, y := 135, controllable := false },
  { id := "REVENUE", label := "REVENUE", tier := 2, x := 290, y := 135, controllable := false }
]

/-- The node ids (the start nodes `getDownstreamPath` is called on). -/
def cNodeIds : List String := cnodes.map CNode.id

/-- One edge of the causal network. `src`/`tgt` embed the JS fields
`from`/`to` (`from` is a Lean keyword); `feedback` defaults to `false` for
the edges whose literals omit it. -/
structure CEdge where
  src : String
  tgt : String
  beta : ℚ
  feedback : Bool := false
deriving DecidableEq

/-- The `edges` array, including the two `feedback: true` perimeter loops
`REVENUE→PROMO` and `CONVERSION→DEMAND`. -/
def edges : List CEdge := [
  { src := "PRICE", tgt := "DEMAND", beta := -0.41 },
  { src := "PROMO", tgt := "DEMAND", beta := 0.33 },
  { src := "CHANNEL", tgt := "DEMAND", beta := 0.27 },
  { src := "MARKET", tgt := "DEMAND", beta := 0.52 },
  { src := "OPS", tgt := "CONVERSION", beta := 0.19 },
  { src := "CHANNEL", tgt := "CONVERSION", beta := 0.22 },
  { src := "DEMAND", tgt := "CONVERSION", beta := 0.45 },
  { src := "CONVERSION", tgt := "REVENUE", beta := 0.89 },
  { src := "REVENUE", tgt := "PROMO", beta := 0.25, feedback := true },
  { src := "CONVERSION", tgt := "DEMAND", beta := 0.18, feedback := true }
]

/-- The recursive `traverse` of `getDownstreamPath`, with the `visited` set
and the accumulated `path` threaded explicitly. JS recursion carries no
fuel; here a fuel parameter bounds the recursion depth and `none` marks a
hypothetical exhaustion of it, so `some` results both exhibit the value
computed and certify that the recursion depth stayed below the fuel. Each
recursive level inserts a previously unvisited node into `visited`, so
depth is bounded by the number of distinct node ids reachable plus one;
`getDownstreamPath` passes fuel `9` (the 8 network nodes, plus one). -/
def traverse (fuel : Nat) (nodeId : String) (delay : Nat)
    (st : List String × List (String × Nat)) :
    Option (List String × List (String × Nat)) :=
  match fuel with
  | 0 => none
  | fuel + 1 =>
    if st.1.contains nodeId then some st
    else
      let st1 := (nodeId :: st.1, st.2 ++ [(nodeId, delay)])
      edges.foldlM
        (fun acc e =>
          if e.src == nodeId && !e.feedback then
            traverse fuel e.tgt (delay + 1500) acc
          else
            some acc)
        st1

/-- `getDownstreamPath(startNode)`: the `path` accumulated by `traverse`
(each entry pairs a node id with its cascade delay in ms). -/
def getDownstreamPath (startNode : String) : Option (List (String × Nat)) :=
  (traverse 9 startNode 0 ([], [])).map Prod.snd

/-! ## Shared facts about the static data -/

/-- The record ids of the static array are pairwise distinct. -/
theorem accomplishment_ids_nodup : (accomplishments.map Accomplishment.id).Nodup := by
  decide

/-- Distinct records of the static array have distinct ids. -/
theorem accomplishment_id_injOn :
    ∀ a ∈ accomplishments, ∀ b ∈ accomplishments, a ≠ b → a.id ≠ b.id := by
  decide

/-! ## Claim theorems -/

/-- C6: the static `accomplishments` array satisfies both data invariants:
its record ids are pairwise distinct, and every tag in any record's
`methods` list is a key of `methodCategories` while every tag in any
record's `industries` list is a key of `industryCategories`. -/
theorem accomplishments_invariants :
    (accomplishments.map Accomplishment.id).Nodup ∧
    accomplishments.all (fun r =>
      r.methods.all (fun t => (methodCategories.lookup t).isSome) &&
      r.industries.all (fun t => (industryCategories.lookup t).isSome)) = true := by
  exact ⟨accomplishment_ids_nodup, by decide⟩

/-- C1: for every key of the active category table, the group the
`grouped` memo computes for that key is stored under the key and equals
`accomplishments.filter(a => a[categoryKey].includes(key))`; its members
are exactly the records whose tag list contains the key, it is a sublist
of `accomplishments` (so in array order), and the pill count
`grouped[key]?.length || 0` equals its length. -/
theorem grouped_correct (vm : ViewMode) (key : String)
    (h : key ∈ (categories vm).map Prod.fst) :
    groupedLookup vm key =
      some (accomplishments.filter fun a => (tagsOf vm a).contains key) ∧
    (∀ a, a ∈ (accomplishments.filter fun a => (tagsOf vm a).contains key) ↔
      a ∈ accomplishments ∧ key ∈ tagsOf vm a) ∧
    (accomplishments.filter fun a => (tagsOf vm a).contains key).Sublist
      accomplishments ∧
    pillCount vm key =
      (accomplishments.filter fun a => (tagsOf vm a).contains key).length := by
  refine ⟨?_, fun a => by simp [List.mem_filter], List.filter_sublist _, ?_⟩
  · cases vm <;> fin_cases h <;> decide
  · cases vm <;> fin_cases h <;> decide

/-- Witness for C1 at the concrete key `"llms"` of the method view. -/
theorem grouped_correct_witness :
    ("llms" ∈ (categories ViewMode.method).map Prod.fst) ∧
    (groupedLookup ViewMode.method "llms" =
      some (accomplishments.filter fun a =>
        (tagsOf ViewMode.method a).contains "llms") ∧
    (∀ a, a ∈ (accomplishments.filter fun a =>
        (tagsOf ViewMode.method a).contains "llms") ↔
      a ∈ accomplishments ∧ "llms" ∈ tagsOf ViewMode.method a) ∧
    (accomplishments.filter fun a =>
      (tagsOf ViewMode.method a).contains "llms").Sublist accomplishments ∧
    pillCount ViewMode.method "llms" =
      (accomplishments.filter fun a =>
        (tagsOf ViewMode.method a).contains "llms").length) :=
  ⟨by decide, grouped_correct ViewMode.method "llms" (by decide)⟩

/-- `resume()` does not change the `enabled` flag. -/
theorem resume_enabled (st : SMState) : st.resume.enabled = st.enabled := by
  unfold SMState.resume
  cases h : st.audioContext with
  | none => rfl
  | some s => cases s <;> rfl

/-- `playToggleOn()` does not change the `enabled` flag. -/
theorem playToggleOn_enabled (st : SMState) :
    (playToggleOn st).state.enabled = st.enabled := by
  unfold playToggleOn
  split
  · rfl
  · exact resume_enabled st

/-- C2: `toggle()` always flips `enabled` to the negation of its prior
value, stores its string form under `'soundEnabled'`, and returns the new
value — in the enabling case `init()` re-reads the key `toggle` has just
written, so its overwrite of `enabled` parses back to the same new value. -/
theorem toggle_flips_and_persists (ctorOk ctorSuspended : Bool)
    (st : SMState) (ls : Store) :
    (toggle ctorOk ctorSuspended st ls).state.enabled = !st.enabled ∧
    (toggle ctorOk ctorSuspended st ls).store "soundEnabled" =
      some (boolToString (!st.enabled)) ∧
    (toggle ctorOk ctorSuspended st ls).ret = !st.enabled := by
  have hstore : (toggle ctorOk ctorSuspended st ls).store "soundEnabled" =
      some (boolToString (!st.enabled)) := by
    simp only [toggle]
    split <;> simp [setItem]
  have hen : (toggle ctorOk ctorSuspended st ls).state.enabled = !st.enabled := by
    simp only [toggle]
    split
    · rename_i hsplit
      rw [playToggleOn_enabled]
      simp only [init]
      split
      · rfl
      · cases ctorOk with
        | false => rfl
        | true =>
          simp only [initTry, if_true]
          rw [resume_enabled]
          simp [setItem, getItem, boolToString, hsplit]
    · rfl
  refine ⟨hen, hstore, ?_⟩
  have hr : (toggle ctorOk ctorSuspended st ls).ret =
      (toggle ctorOk ctorSuspended st ls).state.enabled := by
    simp only [toggle]
    split <;> rfl
  rw [hr, hen]

/-- The C3 claim exactly as stated: a card click flips the clicked
record's expanded state and leaves every other record's expanded state
unchanged. -/
def clickTogglesOnlyClicked : Prop :=
  ∀ (e : Option Nat), ∀ a ∈ accomplishments,
    isExpanded (clickCard e a.id) a = !isExpanded e a ∧
    ∀ b ∈ accomplishments, b.id ≠ a.id →
      isExpanded (clickCard e a.id) b = isExpanded e b

/-- C3 counterexample: with record 1 expanded (`expandedId = 1`), clicking
record 2 sets `expandedId` to `2`, which collapses record 1 — another
record's state changes. -/
theorem clickTogglesOnlyClicked_false : ¬ clickTogglesOnlyClicked := by
  intro h
  have h2 := (h (some 1) (accomplishments.get ⟨1, by decide⟩)
      (accomplishments.get_mem 1 (by decide))).2
      (accomplishments.get ⟨0, by decide⟩)
      (accomplishments.get_mem 0 (by decide)) (by decide)
  revert h2
  decide

/-- C3 (amended): clicking a displayed record flips that record's expanded
state, and every record other than the clicked one is collapsed after the
click; hence another record's state changes only when it was the record
that had been expanded. -/
theorem clickCard_toggles (e : Option Nat) (a b : Accomplishment)
    (ha : a ∈ accomplishments) (hb : b ∈ accomplishments) (hab : b ≠ a) :
    isExpanded (clickCard e a.id) a = !isExpanded e a ∧
    isExpanded (clickCard e a.id) b = false ∧
    (isExpanded (clickCard e a.id) b ≠ isExpanded e b →
      isExpanded e b = true) := by
  have hid : b.id ≠ a.id := accomplishment_id_injOn b hb a ha hab
  have h2 : isExpanded (clickCard e a.id) b = false := by
    unfold clickCard isExpanded
    split
    · rfl
    · simpa using fun hba => hid hba.symm
  refine ⟨?_, h2, ?_⟩
  · unfold clickCard isExpanded
    by_cases hcl : e = some a.id
    · simp [hcl]
    · simp [hcl]
  · intro hne
    cases hxb : isExpanded e b with
    | true => rfl
    | false => exact absurd (by rw [h2, hxb]) hne

/-- Witness for C3 (amended): record 1 expanded, record 2 clicked. -/
theorem clickCard_toggles_witness :
    isExpanded (clickCard (some 1) (accomplishments.get ⟨1, by decide⟩).id)
        (accomplishments.get ⟨1, by decide⟩) =
      !isExpanded (some 1) (accomplishments.get ⟨1, by decide⟩) ∧
    isExpanded (clickCard (some 1) (accomplishments.get ⟨1, by decide⟩).id)
        (accomplishments.get ⟨0, by decide⟩) = false ∧
    (isExpanded (clickCard (some 1) (accomplishments.get ⟨1, by decide⟩).id)
        (accomplishments.get ⟨0, by decide⟩) ≠
      isExpanded (some 1) (accomplishments.get ⟨0, by decide⟩) →
      isExpanded (some 1) (accomplishments.get ⟨0, by decide⟩) = true) :=
  clickCard_toggles (some 1) _ _
    (accomplishments.get_mem 1 (by decide))
    (accomplishments.get_mem 0 (by decide)) (by decide)

/-- The spec's constraint on one localStorage write: the sound-enabled key
carries exactly `"true"` or `"false"`, the view-theme key exactly
`"classic"` or `"terminal"`. -/
def legalWrite (w : String × String) : Bool :=
  (w.1 == "soundEnabled" && (w.2 == "true" || w.2 == "false")) ||
  (w.1 == "siteView" && (w.2 == "classic" || w.2 == "terminal"))

/-- `toggle()` performs exactly one localStorage write: the new flag's
string form under `'soundEnabled'`. -/
theorem toggle_writes (ctorOk ctorSuspended : Bool) (st : SMState) (ls : Store) :
    (toggle ctorOk ctorSuspended st ls).writes =
      [("soundEnabled", boolToString (!st.enabled))] := by
  simp only [toggle]
  split <;> rfl

/-- C4: every value the program ever writes to browser local storage is
one of the spec's plain string values — each write of any storage-writing
user event satisfies `legalWrite`. -/
theorem storage_writes_legal (e : StorageEvent) (st : SMState)
    (vs : ViewState) (ls : Store) :
    (eventWrites e st vs ls).all legalWrite = true := by
  cases e with
  | soundToggle ctorOk ctorSuspended =>
    simp only [eventWrites, toggle_writes]
    cases st.enabled <;> decide
  | viewTerminalClick => rfl
  | viewClassicClick => rfl

/-- C5: the label rendered for a tag equals the lookup-table entry's
`label` when the tag is a key of the table (every label in both tables is
a non-empty — truthy — string, so `||` keeps it), and equals the raw tag
string when the tag is absent. -/
theorem renderedLabel_correct (t : String) :
    (∀ c, methodCategories.lookup t = some c → renderedMethodLabel t = c.label) ∧
    (methodCategories.lookup t = none → renderedMethodLabel t = t) ∧
    (∀ c, industryCategories.lookup t = some c →
      renderedIndustryLabel t = c.label) ∧
    (industryCategories.lookup t = none → renderedIndustryLabel t = t) := by
  have hm : ∀ p ∈ methodCategories, p.2.label ≠ "" := by decide
  have hi : ∀ p ∈ industryCategories, p.2.label ≠ "" := by decide
  refine ⟨?_, ?_, ?_, ?_⟩
  · intro c hc
    have hlab := hm _ (lookup_mem hc)
    simp [renderedMethodLabel, hc, hlab]
  · intro hc
    simp [renderedMethodLabel, hc]
  · intro c hc
    have hlab := hi _ (lookup_mem hc)
    simp [renderedIndustryLabel, hc, hlab]
  · intro hc
    simp [renderedIndustryLabel, hc]

/-- Witness for C5: a present method key, an absent method tag, a present
industry key and an absent industry tag. -/
theorem renderedLabel_correct_witness :
    renderedMethodLabel "llms" = "LLMs & GenAI" ∧
    renderedMethodLabel "quantum" = "quantum" ∧
    renderedIndustryLabel "legal" = "Legal" ∧
    renderedIndustryLabel "offworld" = "offworld" :=
  ⟨(renderedLabel_correct "llms").1
      { label := "LLMs & GenAI", icon := "🔮"
        description := "Large language models and generative AI" } (by decide),
   (renderedLabel_correct "quantum").2.1 (by decide),
   (renderedLabel_correct "legal").2.2.1
      { label := "Legal", icon := "⚖️"
        description := "Contract analysis and compliance" } (by decide),
   (renderedLabel_correct "offworld").2.2.2 (by decide)⟩

/-- C7: when `new AudioContext()` throws inside `init()`, the exception is
its `try` block's only effect — `init` catches it (`initTry` is the
`.error` case, yet `init` still returns a normal pair), logs the warning,
and leaves `audioContext = null` and `initialized = false`; on any state
without an audio context every sound routine returns without creating any
audio nodes. -/
theorem init_failure_safe (ctorSuspended : Bool) (st : SMState) (ls : Store)
    (now : Int) (hctx : st.audioContext = none)
    (hini : st.initialized = false) :
    initTry false ctorSuspended st ls = .error "Web Audio API not supported" ∧
    init false ctorSuspended st ls = (st, true) ∧
    (init false ctorSuspended st ls).1.audioContext = none ∧
    (init false ctorSuspended st ls).1.initialized = false ∧
    (playClick st).nodes = [] ∧
    (playHover now st).nodes = [] ∧
    (playToggle st).nodes = [] ∧
    (playToggleOn st).nodes = [] ∧
    (playSelect st).nodes = [] ∧
    (playExpand st).nodes = [] ∧
    (playCollapse st).nodes = [] ∧
    (addNoiseBurst st).nodes = [] := by
  have hnone : st.audioContext.isNone = true := by simp [hctx]
  have hinit : init false ctorSuspended st ls = (st, true) := by
    simp [init, initTry, hini]
  refine ⟨by simp [initTry], hinit, by rw [hinit]; exact hctx,
    by rw [hinit]; exact hini, ?_, ?_, ?_, ?_, ?_, ?_, ?_, ?_⟩ <;>
    simp [playClick, playHover, playToggle, playToggleOn, playSelect,
      playExpand, playCollapse, addNoiseBurst, hnone]

/-- Witness for C7 at the freshly constructed sound manager state and an
empty store. -/
theorem init_failure_safe_witness :
    initTry false false SMState.new (fun _ => none) =
      .error "Web Audio API not supported" ∧
    init false false SMState.new (fun _ => none) = (SMState.new, true) ∧
    (init false false SMState.new (fun _ => none)).1.audioContext = none ∧
    (init false false SMState.new (fun _ => none)).1.initialized = false ∧
    (playClick SMState.new).nodes = [] ∧
    (playHover 0 SMState.new).nodes = [] ∧
    (playToggle SMState.new).nodes = [] ∧
    (playToggleOn SMState.new).nodes = [] ∧
    (playSelect SMState.new).nodes = [] ∧
    (playExpand SMState.new).nodes = [] ∧
    (playCollapse SMState.new).nodes = [] ∧
    (addNoiseBurst SMState.new).nodes = [] :=
  init_failure_safe false SMState.new (fun _ => none) 0 rfl rfl

/-- C9: each of the six user-facing sound routines is a strict no-op when
`enabled` is false or `audioContext` is null — the state (including
`lastHoverTime`) is unchanged, no nodes are created, and `resume()` is not
invoked. -/
theorem play_noop_when_disabled (st : SMState) (now : Int)
    (h : st.enabled = false ∨ st.audioContext = none) :
    playClick st = ⟨st, [], false⟩ ∧
    playHover now st = ⟨st, [], false⟩ ∧
    playToggle st = ⟨st, [], false⟩ ∧
    playSelect st = ⟨st, [], false⟩ ∧
    playExpand st = ⟨st, [], false⟩ ∧
    playCollapse st = ⟨st, [], false⟩ := by
  have hb : (!st.enabled || st.audioContext.isNone) = true := by
    rcases h with h | h <;> simp [h]
  refine ⟨?_, ?_, ?_, ?_, ?_, ?_⟩ <;>
    simp [playClick, playHover, playToggle, playSelect, playExpand,
      playCollapse, hb]

/-- Witness for C9 at the freshly constructed (disabled) state. -/
theorem play_noop_when_disabled_witness :
    playClick SMState.new = ⟨SMState.new, [], false⟩ ∧
    playHover 0 SMState.new = ⟨SMState.new, [], false⟩ ∧
    playToggle SMState.new = ⟨SMState.new, [], false⟩ ∧
    playSelect SMState.new = ⟨SMState.new, [], false⟩ ∧
    playExpand SMState.new = ⟨SMState.new, [], false⟩ ∧
    playCollapse SMState.new = ⟨SMState.new, [], false⟩ :=
  play_noop_when_disabled SMState.new 0 (Or.inl rfl)

/-- C8: every interval tick replaces the shared frame index with
`(prev + 1) % 12`, so the index stays in `0..11` from its initial `0`; the
three panels' literal frame arrays have 6, 12 and 4 frames; and each
panel's selection `frames[frameIndex % frames.length]` is in bounds for
every natural frame index — the rendered frame is never `undefined`. -/
theorem heroFrames_safe :
    (∀ n, tick n = (n + 1) % 12) ∧
    (∀ n, frameIndexAt n < 12) ∧
    panels.map (fun p => p.frames.length) = [6, 12, 4] ∧
    (∀ p ∈ panels, ∀ idx : Nat, (selectedFrame p idx).isSome) := by
  refine ⟨fun n => rfl, ?_, by decide, ?_⟩
  · intro n
    induction n with
    | zero => decide
    | succ n ih => exact Nat.mod_lt _ (by norm_num)
  · intro p hp idx
    have hlen : 0 < p.frames.length := by
      have hall : ∀ q ∈ panels, 0 < q.frames.length := by decide
      exact hall p hp
    have hmod : idx % p.frames.length < p.frames.length := Nat.mod_lt _ hlen
    simp only [selectedFrame, List.get?_eq_get hmod, Option.isSome_some]

/-- Witness for C8: a tick count past one cycle, and the enzyme panel at a
frame index beyond its own array length. -/
theorem heroFrames_safe_witness :
    frameIndexAt 25 < 12 ∧
    (selectedFrame (panels.get ⟨0, by decide⟩) 7).isSome :=
  ⟨heroFrames_safe.2.1 25,
   heroFrames_safe.2.2.2 _ (panels.get_mem 0 (by decide)) 7⟩

/-- C10: the edge list carries the feedback cycles `REVENUE→PROMO` and
`CONVERSION→DEMAND`, yet for every start node of the network
`getDownstreamPath` finishes with its recursion depth under the node-count
fuel bound and returns a path whose node ids are pairwise distinct: the
traversal skips `feedback` edges and the `visited` set blocks
re-expansion. -/
theorem downstreamPath_terminates_nodup (start : String)
    (h : start ∈ cNodeIds) :
    (∃ e ∈ edges, e.src = "REVENUE" ∧ e.tgt = "PROMO" ∧ e.feedback = true) ∧
    (∃ e ∈ edges, e.src = "CONVERSION" ∧ e.tgt = "DEMAND" ∧
      e.feedback = true) ∧
    (getDownstreamPath start).isSome ∧
    (((getDownstreamPath start).getD []).map Prod.fst).Nodup := by
  fin_cases h <;> refine ⟨?_, ?_, ?_, ?_⟩ <;> decide

/-- Witness for C10 at the start node `"PRICE"`. -/
theorem downstreamPath_terminates_nodup_witness :
    (∃ e ∈ edges, e.src = "REVENUE" ∧ e.tgt = "PROMO" ∧ e.feedback = true) ∧
    (∃ e ∈ edges, e.src = "CONVERSION" ∧ e.tgt = "DEMAND" ∧
      e.feedback = true) ∧
    (getDownstreamPath "PRICE").isSome ∧
    (((getDownstreamPath "PRICE").getD []).map Prod.fst).Nodup :=
  downstreamPath_terminates_nodup "PRICE" (by decide)

end Foretodata
